import Mathlib

/-!
Verification of the KidEdu backend authentication subsystem.

The JavaScript sources embedded here:
- config/jwt.js : generateToken, verifyToken, generateUserToken
- routes/auth.js : route table wiring validation / auth middleware to controllers
- server.js : health check handler, 404 handler, route registration

The jsonwebtoken library is modelled symbolically: a signature is an
idealized MAC, injective in both the secret and the signed payload
(no collisions), and a token on the wire is either a well-formed signed
structure or malformed. Times are Nat seconds since epoch, as in JWT
numeric dates.

Components whose source files are not part of the repository snapshot
(controllers/authController.js, middleware/auth.js, middleware/validation.js,
models/User.js) are modelled from the specification; each such definition
says so in its doc comment.
-/

namespace KidEdu

/-! ### Data model -/

/-- The claim set placed into a token by generateUserToken in config/jwt.js:
the payload object with fields id, email, name. -/
structure UserClaims where
  id : String
  email : String
  name : String
deriving DecidableEq, Repr

/-- A decoded JWT payload: the user claims plus the iat and exp numeric-date
fields that jwt.sign adds when expiresIn is given. -/
structure JwtPayload where
  claims : UserClaims
  iat : Nat
  exp : Nat
deriving DecidableEq, Repr

/-- Idealized message authentication code over a payload: modelled as the
pair of the secret and the payload, hence injective in both (a symbolic,
collision-free signature). -/
def macSign (secret : String) (p : JwtPayload) : String × JwtPayload :=
  (secret, p)

/-- A structurally well-formed signed token: payload plus signature. -/
structure SignedToken where
  payload : JwtPayload
  sig : String × JwtPayload
deriving DecidableEq, Repr

/-- A token as received on the wire: either a well-formed signed structure
or a malformed string that does not parse as a JWT. -/
inductive Token where
  | signed : SignedToken → Token
  | malformed : String → Token
deriving DecidableEq, Repr

/-- The two error classes thrown by jwt.verify: JsonWebTokenError (the
TokenInvalid class: malformed structure or bad signature) and
TokenExpiredError (the TokenExpired class, carrying the expiry instant). -/
inductive JwtError where
  | jsonWebTokenError : String → JwtError
  | tokenExpiredError : Nat → JwtError
deriving DecidableEq, Repr

/-- Model of jwt.verify(token, secret) from the jsonwebtoken library at
clock time now: a malformed token fails with JsonWebTokenError; a signed
token first has its signature checked against the secret (failure is
JsonWebTokenError), then its exp claim checked (now at or past exp is
TokenExpiredError); otherwise the decoded payload is returned. -/
def jwtVerify (secret : String) (now : Nat) : Token → Except JwtError JwtPayload
  | .malformed _ => .error (.jsonWebTokenError ("jwt malformed"))
  | .signed st =>
    if st.sig = macSign secret st.payload then
      if st.payload.exp ≤ now then
        .error (.tokenExpiredError st.payload.exp)
      else
        .ok st.payload
    else
      .error (.jsonWebTokenError ("invalid signature"))

/-- Model of jwt.sign(payload, secret) with option expiresIn = lifetime at
clock time now: iat = now, exp = now + lifetime, signed with the secret. -/
def jwtSign (secret : String) (now : Nat) (lifetime : Nat) (c : UserClaims) : Token :=
  Token.signed ⟨⟨c, now, now + lifetime⟩, macSign secret ⟨c, now, now + lifetime⟩⟩

/-- The environment variables consumed by config/jwt.js: JWT_SECRET and the
optional JWT_EXPIRE lifetime (in seconds; the string 7d denotes 604800). -/
structure Env where
  JWT_SECRET : String
  JWT_EXPIRE : Option Nat
deriving DecidableEq, Repr

/-- Seven days in seconds: the default token lifetime, the literal 7d. -/
def sevenDays : Nat := 7 * 24 * 60 * 60

/-- The effective lifetime: process.env.JWT_EXPIRE with default 7d. -/
def envLifetime (e : Env) : Nat := e.JWT_EXPIRE.getD sevenDays

/-- config/jwt.js generateToken: jwt.sign(payload, process.env.JWT_SECRET,
expiresIn = process.env.JWT_EXPIRE or 7d). -/
def generateToken (e : Env) (now : Nat) (payload : UserClaims) : Token :=
  jwtSign e.JWT_SECRET now (envLifetime e) payload

/-- config/jwt.js verifyToken: try return jwt.verify(token, JWT_SECRET),
catch error and rethrow it unchanged.  The try/catch is embedded literally
as a match that rebuilds the same result. -/
def verifyToken (e : Env) (now : Nat) (t : Token) : Except JwtError JwtPayload :=
  match jwtVerify e.JWT_SECRET now t with
  | .ok decoded => .ok decoded
  | .error err => .error err

/-- The password digest produced by the credential hasher: a per-call salt
together with the hash core.
Modelled from the spec: models/User.js (bcrypt hashing) is not in the
snapshot; bcrypt is idealized as a perfectly collision-resistant keyed
transform, so the core is an injective function of the plaintext and the
salt is stored alongside it in the digest. -/
structure HashDigest where
  salt : Nat
  core : String
deriving DecidableEq, Repr

/-- Modelled from the spec: the bcrypt core transform, idealized as an
injective (collision-free) function of the plaintext; the spec property
verify(p2, hash(p)) = false for p2 ≠ p holds with overwhelming probability
for real bcrypt and exactly in this idealization. -/
def bcryptCore (p : String) (_salt : Nat) : String := p

/-- Modelled from the spec: hash(plaintext) with an explicit per-call random
salt (the nondeterministic salt draw is passed in as an argument). -/
def bcryptHash (p : String) (salt : Nat) : HashDigest :=
  ⟨salt, bcryptCore p salt⟩

/-- Modelled from the spec: verify(plaintext, digest) recomputes the core
using the salt embedded in the digest and compares. -/
def bcryptVerify (p : String) (d : HashDigest) : Bool :=
  decide (bcryptCore p d.salt = d.core)

/-- An Identity record as stored by the persistence layer (models/User.js):
id, name, email, password digest, creation time. -/
structure User where
  _id : String
  name : String
  email : String
  password : HashDigest
  createdAt : String
deriving DecidableEq, Repr

/-- config/jwt.js generateUserToken: builds the payload with fields
id = user._id, email = user.email, name = user.name (the password digest is
not placed in the payload) and calls generateToken. -/
def generateUserToken (e : Env) (now : Nat) (u : User) : Token :=
  generateToken e now ⟨u._id, u.email, u.name⟩

/-! ### Responses and envelopes -/

/-- One field-level validation violation: field name and message. -/
structure Violation where
  field : String
  message : String
deriving DecidableEq, Repr

/-- The public projection of a User returned in response bodies: the
password digest field is absent by construction. -/
structure PublicUser where
  _id : String
  name : String
  email : String
  createdAt : String
deriving DecidableEq, Repr

/-- The data member of a success envelope: user plus token on signup and
login, user alone on profile fetch. -/
inductive RespData where
  | userToken : PublicUser → Token → RespData
  | userOnly : PublicUser → RespData
deriving DecidableEq, Repr

/-- The top-level shape of every JSON response body emitted by the server:
a success flag, a message, and the three optional members that the various
handlers add (errors on validation failure, data on API success, timestamp
on the health check).  An Option field set to none means the key is absent
from the JSON object. -/
structure Envelope where
  success : Bool
  message : String
  errors : Option (List Violation)
  data : Option RespData
  timestamp : Option String
deriving DecidableEq, Repr

/-- Conformance to the ErrorEnvelope shape of the spec: success false,
message a string (by typing), optionally errors, and no other members. -/
def isErrorEnvelope (b : Envelope) : Bool :=
  !b.success && b.data.isNone && b.timestamp.isNone

/-- Conformance to the success envelope shape of the spec: success true,
message, a data member, and no other members. -/
def isSuccessEnvelope (b : Envelope) : Bool :=
  b.success && b.data.isSome && b.errors.isNone && b.timestamp.isNone

/-- server.js 404 handler body: success false, message Route not found. -/
def notFoundBody : Envelope :=
  ⟨false, "Route not found", none, none, none⟩

/-- server.js health check body: success true, a message, and a timestamp
member instead of a data member. -/
def healthBody (ts : String) : Envelope :=
  ⟨true, "KidEdu Backend API is running", none, none, some ts⟩

/-! ### Request model and middleware -/

/-- HTTP methods used by the route table. -/
inductive Method where
  | GET
  | POST
deriving DecidableEq, Repr

/-- The Authorization header of a request, in parsed form: absent, present
but not of the form Bearer token, or a bearer token. -/
inductive Authorization where
  | absent : Authorization
  | nonBearer : String → Authorization
  | bearer : Token → Authorization
deriving DecidableEq, Repr

/-- A request body as seen after JSON parsing, restricted to the fields the
auth routes read; a missing field is none. -/
structure Body where
  name : Option String
  email : Option String
  password : Option String
deriving DecidableEq, Repr

/-- An incoming HTTP request. -/
structure Request where
  method : Method
  path : String
  authorization : Authorization
  body : Body
deriving DecidableEq, Repr

/-- The tagged-union outcome of a middleware step: proceed with an enriched
value, or short-circuit with a status and response body. -/
inductive StepResult (α : Type) where
  | proceed : α → StepResult α
  | shortCircuit : Nat × Envelope → StepResult α

/-- Sequential middleware dispatch: a short-circuit is the response; on
proceed the downstream handler runs. -/
def runStep {α : Type} (s : StepResult α) (h : α → Nat × Envelope) : Nat × Envelope :=
  match s with
  | .proceed a => h a
  | .shortCircuit r => r

/-- One declarative validation rule: the field it concerns, the predicate
that must hold of the body for the rule to pass, and the violation message
reported when it fails. -/
structure Rule where
  field : String
  check : Body → Bool
  message : String

/-- Drop leading and trailing spaces from a character list (the trim
applied by the validator before the emptiness check). -/
def trimChars (l : List Char) : List Char :=
  ((l.dropWhile (fun c => c = ' ')).reverse.dropWhile (fun c => c = ' ')).reverse

/-- A present, non-empty (after trimming) string field; an absent field is
itself a violation of a required rule. -/
def requiredNonEmpty (f : Body → Option String) (b : Body) : Bool :=
  match f b with
  | none => false
  | some s => decide (trimChars s.data ≠ [])

/-- Split a character list on a separator character. -/
def splitOnChar (sep : Char) : List Char → List (List Char)
  | [] => [[]]
  | c :: cs =>
    match splitOnChar sep cs, decide (c = sep) with
    | r, true => [] :: r
    | [], false => [[c]]
    | h :: t, false => (c :: h) :: t

/-- A minimal email shape check: one at-sign splitting a non-empty local
part from a domain that contains a dot. -/
def isEmailShape (s : String) : Bool :=
  match splitOnChar ('@') s.data with
  | [lp, dom] => decide (lp ≠ []) && dom.contains ('.') && decide (dom ≠ [])
  | _ => false

/-- Modelled from the spec: the signup rule list of middleware/validation.js
(not in the snapshot): name required and non-empty, email of valid shape,
password of minimum length 6; evaluated in this order. -/
def signupRules : List Rule :=
  [ ⟨"name", fun b => requiredNonEmpty Body.name b, "Name is required"⟩,
    ⟨"email", fun b => (b.email.map isEmailShape).getD false, "Please provide a valid email"⟩,
    ⟨"password", fun b => (b.password.map (fun s => decide (6 ≤ s.length))).getD false,
      "Password must be at least 6 characters"⟩ ]

/-- Modelled from the spec: the login rule list of middleware/validation.js:
email of valid shape, password present. -/
def loginRules : List Rule :=
  [ ⟨"email", fun b => (b.email.map isEmailShape).getD false, "Please provide a valid email"⟩,
    ⟨"password", fun b => b.password.isSome, "Password is required"⟩ ]

/-- Evaluate every rule against the body and collect, in rule order, one
violation per failing rule: all failures are reported, not only the first. -/
def runRules (rules : List Rule) (b : Body) : List Violation :=
  rules.filterMap (fun r => if r.check b then none else some ⟨r.field, r.message⟩)

/-- The 400 body produced on validation failure: an ErrorEnvelope whose
errors member is the ordered violation list. -/
def validationFailedBody (vs : List Violation) : Envelope :=
  ⟨false, "Validation failed", some vs, none, none⟩

/-- Modelled from the spec: the signup validation middleware short-circuits
with 400 and the full ordered violation list when any rule fails, and
passes the request through unchanged when all rules pass. -/
def validateSignup (b : Body) : StepResult Body :=
  match runRules signupRules b with
  | [] => .proceed b
  | vs => .shortCircuit (400, validationFailedBody vs)

/-- Modelled from the spec: the login validation middleware, same policy
over the login rule list. -/
def validateLogin (b : Body) : StepResult Body :=
  match runRules loginRules b with
  | [] => .proceed b
  | vs => .shortCircuit (400, validationFailedBody vs)

/-- A 401 ErrorEnvelope used by the auth gate. -/
def unauthorizedBody (msg : String) : Envelope :=
  ⟨false, msg, none, none, none⟩

/-- Modelled from the spec: middleware/auth.js (not in the snapshot), the
auth gate state machine: an absent Authorization header or one not of the
form Bearer token fails immediately with 401 without reaching the token
service; otherwise verifyToken is invoked and both of its failure classes
map to 401 (messages may differ, the status may not); on success the
decoded claim set is handed to the next stage. -/
def authenticate (e : Env) (now : Nat) (req : Request) : StepResult JwtPayload :=
  match req.authorization with
  | .absent => .shortCircuit (401, unauthorizedBody ("Access denied. No token provided"))
  | .nonBearer _ => .shortCircuit (401, unauthorizedBody ("Access denied. No token provided"))
  | .bearer t =>
    match verifyToken e now t with
    | .ok decoded => .proceed decoded
    | .error (.tokenExpiredError _) => .shortCircuit (401, unauthorizedBody ("Token expired"))
    | .error (.jsonWebTokenError _) => .shortCircuit (401, unauthorizedBody ("Invalid token"))

/-! ### Controllers (modelled from the spec) and the server -/

/-- Projection dropping the password digest from a stored User. -/
def toPublic (u : User) : PublicUser :=
  ⟨u._id, u.name, u.email, u.createdAt⟩

/-- The persistence layer lookup by email. -/
def findByEmail (db : List User) (email : String) : Option User :=
  db.find? (fun u => u.email = email)

/-- The persistence layer lookup by id. -/
def findById (db : List User) (i : String) : Option User :=
  db.find? (fun u => u._id = i)

/-- The single 401 body returned by login for both a missing account and a
wrong password (account-enumeration hardening). -/
def invalidCredentialsBody : Envelope :=
  ⟨false, "Invalid email or password", none, none, none⟩

/-- Modelled from the spec: the login controller of authController.js (not
in the snapshot): look up by email; an unknown email and a failing
credential check produce the identical 401 response; on success issue a
token and return 200 with the public user and the token. -/
def login (e : Env) (db : List User) (now : Nat) (b : Body) : Nat × Envelope :=
  match findByEmail db (b.email.getD ("")) with
  | none => (401, invalidCredentialsBody)
  | some u =>
    if bcryptVerify (b.password.getD ("")) u.password then
      (200, ⟨true, "Login successful", none,
        some (RespData.userToken (toPublic u) (generateUserToken e now u)), none⟩)
    else
      (401, invalidCredentialsBody)

/-- Modelled from the spec: the signup controller: duplicate email is a
409 Conflict; otherwise the password is hashed, the Identity persisted, a
token issued, and 201 returned with the public user and token.  The fresh
id, salt and creation timestamp are deterministic placeholders here since
no claim depends on their values. -/
def signup (e : Env) (db : List User) (now : Nat) (b : Body) : Nat × Envelope :=
  match findByEmail db (b.email.getD ("")) with
  | some _ => (409, ⟨false, "User already exists with this email", none, none, none⟩)
  | none =>
    let u : User :=
      ⟨toString db.length, b.name.getD (""), b.email.getD (""),
        bcryptHash (b.password.getD ("")) now, toString now⟩
    (201, ⟨true, "User registered successfully", none,
      some (RespData.userToken (toPublic u) (generateUserToken e now u)), none⟩)

/-- Modelled from the spec: the profile controller: re-fetch the identity
resolved by the auth gate and return it without the password digest; a
vanished record is a 404 ErrorEnvelope. -/
def getProfile (db : List User) (p : JwtPayload) : Nat × Envelope :=
  match findById db p.claims.id with
  | some u => (200, ⟨true, "Profile retrieved successfully", none,
      some (RespData.userOnly (toPublic u)), none⟩)
  | none => (404, ⟨false, "User not found", none, none, none⟩)

/-- Whether a request matches a registered route: the three auth routes of
routes/auth.js mounted at /api/auth in server.js, and the health check. -/
def matchesRoute (req : Request) : Bool :=
  (decide (req.method = Method.POST) && decide (req.path = "/api/auth/signup"))
  || (decide (req.method = Method.POST) && decide (req.path = "/api/auth/login"))
  || (decide (req.method = Method.GET) && decide (req.path = "/api/auth/profile"))
  || (decide (req.method = Method.GET) && decide (req.path = "/api/health"))

/-- The server dispatch of server.js: the mounted auth routes with their
middleware chains from routes/auth.js, the health check handler, and the
catch-all 404 handler for everything else. -/
def handleRequest (e : Env) (db : List User) (now : Nat) (req : Request) : Nat × Envelope :=
  if req.method = Method.POST ∧ req.path = "/api/auth/signup" then
    runStep (validateSignup req.body) (fun b => signup e db now b)
  else if req.method = Method.POST ∧ req.path = "/api/auth/login" then
    runStep (validateLogin req.body) (fun b => login e db now b)
  else if req.method = Method.GET ∧ req.path = "/api/auth/profile" then
    runStep (authenticate e now req) (fun p => getProfile db p)
  else if req.method = Method.GET ∧ req.path = "/api/health" then
    (200, healthBody (toString now))
  else
    (404, notFoundBody)

/-! ### Helper accessors used by theorem statements -/

/-- Whether the signature of a token verifies against a secret; false for a
malformed token. -/
def sigVerifies (secret : String) : Token → Bool
  | .malformed _ => false
  | .signed st => decide (st.sig = macSign secret st.payload)

/-- The exp claim of a token (0 for a malformed token, which carries no
claims; every theorem gates its use behind sigVerifies). -/
def tokenExp : Token → Nat
  | .malformed _ => 0
  | .signed st => st.payload.exp

/-- The iat claim of a token (0 for a malformed token). -/
def tokenIat : Token → Nat
  | .malformed _ => 0
  | .signed st => st.payload.iat

/-- Classification of a response: outside the 2xx range it must be an
ErrorEnvelope, inside the 2xx range a success envelope. -/
def respOk (r : Nat × Envelope) : Prop :=
  (¬(200 ≤ r.1 ∧ r.1 < 300) → isErrorEnvelope r.2 = true)
  ∧ ((200 ≤ r.1 ∧ r.1 < 300) → isSuccessEnvelope r.2 = true)

/-! ### Concrete fixtures used by witness theorems -/

/-- A request body with every field absent. -/
def emptyBody : Body := ⟨none, none, none⟩

/-- The invalid signup payload from the spec test properties: empty name,
malformed email, 3-character password. -/
def badSignupBody : Body := ⟨some (""), some ("not-an-email"), some ("123")⟩

/-- A signup payload passing every rule. -/
def goodSignupBody : Body := ⟨some ("Alice"), some ("a@x.com"), some ("secret123")⟩

/-- A concrete environment with the default (unconfigured) lifetime. -/
def envW : Env := ⟨"server-secret", none⟩

/-- A concrete stored user. -/
def userW : User := ⟨"id1", "Alice", "a@x.com", bcryptHash ("pw123456") 0, "t0"⟩

/-- A concrete one-user database. -/
def dbW : List User := [userW]

/-- A health check request. -/
def healthReq : Request := ⟨Method.GET, "/api/health", Authorization.absent, emptyBody⟩

/-- A request matching no registered route. -/
def reqUnknown : Request := ⟨Method.GET, "/nope", Authorization.absent, emptyBody⟩

/-- A profile request with no Authorization header. -/
def profileReqAbsent : Request :=
  ⟨Method.GET, "/api/auth/profile", Authorization.absent, emptyBody⟩

/-- A profile request bearing a malformed token. -/
def profileReqBad : Request :=
  ⟨Method.GET, "/api/auth/profile", Authorization.bearer (Token.malformed ("x")), emptyBody⟩

/-- A profile request bearing a token freshly issued for userW at time 5. -/
def profileReqGood : Request :=
  ⟨Method.GET, "/api/auth/profile", Authorization.bearer (generateUserToken envW 5 userW), emptyBody⟩

/-! ### Theorems -/

/-- Shared lemma: the try/catch wrapper in verifyToken rebuilds exactly the
result of the underlying jwt.verify call. -/
theorem verifyToken_eq (e : Env) (now : Nat) (t : Token) :
    verifyToken e now t = jwtVerify e.JWT_SECRET now t := by
  unfold verifyToken
  cases h : jwtVerify e.JWT_SECRET now t <;> simp [h]

/-- C9: verifyToken is extensionally equal to a bare jwt.verify call with
the current secret: its try/catch rethrows the caught error unchanged, so
for every token the caller observes the same success value or the same
library error, with no translation into tagged result values. -/
theorem verifyToken_refines_jwtVerify (e : Env) (now : Nat) (t : Token) :
    verifyToken e now t = jwtVerify e.JWT_SECRET now t :=
  verifyToken_eq e now t

/-- C3: a token issued by generateToken carries iat equal to the issuance
time and exp equal to iat plus the configured lifetime, and when
JWT_EXPIRE is unconfigured the difference exp minus iat is exactly 7 days
(604800 seconds). -/
theorem generateToken_times (e : Env) (now : Nat) (c : UserClaims) :
    tokenIat (generateToken e now c) = now
    ∧ tokenExp (generateToken e now c) = now + envLifetime e
    ∧ (e.JWT_EXPIRE = none →
        tokenExp (generateToken e now c) - tokenIat (generateToken e now c) = 7 * 24 * 60 * 60) := by
  refine ⟨rfl, rfl, fun h => ?_⟩
  simp [generateToken, jwtSign, tokenExp, tokenIat, envLifetime, h, sevenDays]

/-- Witness for C3 at a concrete unconfigured environment. -/
theorem generateToken_times_witness :
    tokenExp (generateToken envW 100 ⟨"i", "e", "n"⟩)
      - tokenIat (generateToken envW 100 ⟨"i", "e", "n"⟩) = 7 * 24 * 60 * 60 :=
  (generateToken_times envW 100 ⟨"i", "e", "n"⟩).2.2 rfl

/-- C1: verifyToken succeeds and returns the decoded claims exactly when
the signature verifies against the current secret and the current time is
strictly before exp; failure is a JsonWebTokenError (the TokenInvalid
class) whenever the signature does not verify or the token is malformed —
in particular for every token signed under a different secret — and a
TokenExpiredError (the TokenExpired class) when the signature verifies but
the current time is at or past exp. -/
theorem verifyToken_validity_spec (e : Env) (now : Nat) (t : Token) :
    ((∃ c, verifyToken e now t = Except.ok c)
        ↔ (sigVerifies e.JWT_SECRET t = true ∧ now < tokenExp t))
    ∧ (sigVerifies e.JWT_SECRET t = false →
        ∃ m, verifyToken e now t = Except.error (JwtError.jsonWebTokenError m))
    ∧ (sigVerifies e.JWT_SECRET t = true → tokenExp t ≤ now →
        verifyToken e now t = Except.error (JwtError.tokenExpiredError (tokenExp t)))
    ∧ (∀ s now0 lt c, s ≠ e.JWT_SECRET →
        ∃ m, verifyToken e now (jwtSign s now0 lt c)
          = Except.error (JwtError.jsonWebTokenError m)) := by
  refine ⟨?_, ?_, ?_, ?_⟩
  · cases t with
    | malformed s => simp [verifyToken_eq, jwtVerify, sigVerifies]
    | signed st =>
      by_cases hsig : st.sig = macSign e.JWT_SECRET st.payload
      · by_cases hexp : st.payload.exp ≤ now
        · simp [verifyToken_eq, jwtVerify, sigVerifies, tokenExp, hsig, hexp, Nat.not_lt.mpr hexp]
        · simp [verifyToken_eq, jwtVerify, sigVerifies, tokenExp, hsig, hexp, Nat.lt_of_not_le hexp]
      · simp [verifyToken_eq, jwtVerify, sigVerifies, tokenExp, hsig]
  · intro hs
    cases t with
    | malformed s => exact ⟨"jwt malformed", by simp [verifyToken_eq, jwtVerify]⟩
    | signed st =>
      refine ⟨"invalid signature", ?_⟩
      have hsig : ¬ st.sig = macSign e.JWT_SECRET st.payload := by
        simpa [sigVerifies] using hs
      simp [verifyToken_eq, jwtVerify, hsig]
  · intro hs hexp
    cases t with
    | malformed s => simp [sigVerifies] at hs
    | signed st =>
      have hsig : st.sig = macSign e.JWT_SECRET st.payload := by
        simpa [sigVerifies] using hs
      simp only [tokenExp] at hexp ⊢
      simp [verifyToken_eq, jwtVerify, hsig, hexp]
  · intro s now0 lt c hne
    refine ⟨"invalid signature", ?_⟩
    have hsig : ¬ macSign s ⟨c, now0, now0 + lt⟩ = macSign e.JWT_SECRET ⟨c, now0, now0 + lt⟩ := by
      intro hcontra
      exact hne (congrArg Prod.fst hcontra)
    simp [verifyToken_eq, jwtSign, jwtVerify, hsig]

/-- Witness for C1: a token with a tampered signature is rejected as
invalid, a genuine but expired token is rejected as expired, and a token
signed under another secret is rejected as invalid. -/
theorem verifyToken_validity_spec_witness :
    (∃ m, verifyToken envW 5 (Token.malformed ("x"))
        = Except.error (JwtError.jsonWebTokenError m))
    ∧ (verifyToken envW (10 + envLifetime envW) (generateUserToken envW 10 userW)
        = Except.error (JwtError.tokenExpiredError
            (tokenExp (generateUserToken envW 10 userW))))
    ∧ (∃ m, verifyToken envW 5 (jwtSign ("other-secret") 0 100 ⟨"i", "e", "n"⟩)
        = Except.error (JwtError.jsonWebTokenError m)) := by
  refine ⟨?_, ?_, ?_⟩
  · exact (verifyToken_validity_spec envW 5 (Token.malformed ("x"))).2.1 (by decide)
  · exact (verifyToken_validity_spec envW (10 + envLifetime envW)
      (generateUserToken envW 10 userW)).2.2.1 (by decide) (by decide)
  · exact (verifyToken_validity_spec envW 5 (Token.malformed ("y"))).2.2.2
      ("other-secret") 0 100 ⟨"i", "e", "n"⟩ (by decide)

/-- C2: verifying a freshly issued user token under the same secret and at
the issuance instant succeeds, and the decoded claims are exactly the
public fields id, email, name of the user; the password digest does not
influence the token at all, so the credential hash is never part of the
claim set. -/
theorem verify_issue_roundtrip (e : Env) (now : Nat) (u : User)
    (h : 0 < envLifetime e) :
    verifyToken e now (generateUserToken e now u)
      = Except.ok ⟨⟨u._id, u.email, u.name⟩, now, now + envLifetime e⟩
    ∧ (∀ q : HashDigest,
        generateUserToken e now { u with password := q } = generateUserToken e now u) := by
  constructor
  · have hexp : ¬ (now + envLifetime e ≤ now) := by omega
    simp [verifyToken_eq, generateUserToken, generateToken, jwtSign, jwtVerify, hexp]
  · intro q
    rfl

/-- Witness for C2 at the default lifetime. -/
theorem verify_issue_roundtrip_witness :
    verifyToken envW 10 (generateUserToken envW 10 userW)
      = Except.ok ⟨⟨"id1", "a@x.com", "Alice"⟩, 10, 10 + envLifetime envW⟩
    ∧ generateUserToken envW 10 { userW with password := bcryptHash ("other") 3 }
        = generateUserToken envW 10 userW :=
  ⟨(verify_issue_roundtrip envW 10 userW (by decide)).1,
   (verify_issue_roundtrip envW 10 userW (by decide)).2 (bcryptHash ("other") 3)⟩

/-- C7: a password verifies against its own fresh hash; hashing the same
password with two different salts yields two different digests, each of
which still verifies against the password; and any other password fails to
verify against the digest. -/
theorem bcrypt_hash_verify_spec (p p2 : String) (s1 s2 : Nat) :
    bcryptVerify p (bcryptHash p s1) = true
    ∧ (s1 ≠ s2 → bcryptHash p s1 ≠ bcryptHash p s2
        ∧ bcryptVerify p (bcryptHash p s2) = true)
    ∧ (p2 ≠ p → bcryptVerify p2 (bcryptHash p s1) = false) := by
  refine ⟨by simp [bcryptVerify, bcryptHash, bcryptCore], fun hs => ⟨?_, ?_⟩, fun hp => ?_⟩
  · intro hEq
    exact hs (congrArg HashDigest.salt hEq)
  · simp [bcryptVerify, bcryptHash, bcryptCore]
  · simp [bcryptVerify, bcryptHash, bcryptCore, hp]

/-- Witness for C7 at concrete passwords and salts. -/
theorem bcrypt_hash_verify_spec_witness :
    (bcryptHash ("pw123456") 0 ≠ bcryptHash ("pw123456") 1
      ∧ bcryptVerify ("pw123456") (bcryptHash ("pw123456") 1) = true)
    ∧ bcryptVerify ("other") (bcryptHash ("pw123456") 0) = false :=
  ⟨(bcrypt_hash_verify_spec ("pw123456") ("other") 0 1).2.1 (by decide),
   (bcrypt_hash_verify_spec ("pw123456") ("other") 0 1).2.2 (by decide)⟩

/-- C5: a login request with a registered email and a wrong password and a
login request with an unregistered email produce identical responses: the
same 401 status and the identical message text. -/
theorem login_enumeration_hardened (e : Env) (db : List User) (now : Nat)
    (b1 b2 : Body) (u : User)
    (h1 : findByEmail db (b1.email.getD ("")) = some u)
    (h2 : bcryptVerify (b1.password.getD ("")) u.password = false)
    (h3 : findByEmail db (b2.email.getD ("")) = none) :
    login e db now b1 = login e db now b2
    ∧ (login e db now b1).1 = 401
    ∧ (login e db now b1).2.message = (login e db now b2).2.message := by
  have e1 : login e db now b1 = (401, invalidCredentialsBody) := by
    simp [login, h1, h2]
  have e2 : login e db now b2 = (401, invalidCredentialsBody) := by
    simp [login, h3]
  rw [e1, e2]
  exact ⟨rfl, rfl, rfl⟩

/-- Witness for C5: a wrong password for the stored user versus an unknown
email, over the concrete one-user database. -/
theorem login_enumeration_hardened_witness :
    login envW dbW 0 ⟨none, some ("a@x.com"), some ("wrong")⟩
      = login envW dbW 0 ⟨none, some ("z@x.com"), some ("pw123456")⟩
    ∧ (login envW dbW 0 ⟨none, some ("a@x.com"), some ("wrong")⟩).1 = 401 :=
  ⟨(login_enumeration_hardened envW dbW 0 ⟨none, some ("a@x.com"), some ("wrong")⟩
      ⟨none, some ("z@x.com"), some ("pw123456")⟩ userW (by decide) (by decide) (by decide)).1,
   (login_enumeration_hardened envW dbW 0 ⟨none, some ("a@x.com"), some ("wrong")⟩
      ⟨none, some ("z@x.com"), some ("pw123456")⟩ userW (by decide) (by decide) (by decide)).2.1⟩

/-- C6: when any signup rule fails, the validation pipeline short-circuits
with 400 and an ErrorEnvelope carrying the ordered list of all failing
rules, without invoking the handler (the response is the same for every
handler); when all rules pass the request proceeds to the handler
unchanged; every failing rule contributes its violation to the list; and
on the spec test payload all three violations are reported in order. -/
theorem validation_pipeline_complete (b : Body) (h : Body → Nat × Envelope) :
    (runRules signupRules b = [] → runStep (validateSignup b) h = h b)
    ∧ (runRules signupRules b ≠ [] →
        runStep (validateSignup b) h = (400, validationFailedBody (runRules signupRules b))
        ∧ ∀ h2, runStep (validateSignup b) h = runStep (validateSignup b) h2)
    ∧ (∀ r ∈ signupRules, r.check b = false →
        (⟨r.field, r.message⟩ : Violation) ∈ runRules signupRules b)
    ∧ runRules signupRules badSignupBody
        = [⟨"name", "Name is required"⟩,
           ⟨"email", "Please provide a valid email"⟩,
           ⟨"password", "Password must be at least 6 characters"⟩] := by
  refine ⟨?_, ?_, ?_, by decide⟩
  · intro h0
    simp [validateSignup, h0, runStep]
  · intro hne
    cases hv : runRules signupRules b with
    | nil => exact absurd hv hne
    | cons x xs =>
      constructor
      · simp [validateSignup, hv, runStep]
      · intro h2
        simp [validateSignup, hv, runStep]
  · intro r hr hrc
    simp only [runRules, List.mem_filterMap]
    exact ⟨r, hr, by simp [hrc]⟩

/-- Witness for C6: the passing payload reaches the handler unchanged, and
the spec test payload is rejected with 400 and the full violation list for
every handler. -/
theorem validation_pipeline_complete_witness :
    runStep (validateSignup goodSignupBody) (fun b => signup envW [] 0 b)
      = signup envW [] 0 goodSignupBody
    ∧ runStep (validateSignup badSignupBody) (fun b => signup envW [] 0 b)
      = (400, validationFailedBody (runRules signupRules badSignupBody)) :=
  ⟨(validation_pipeline_complete goodSignupBody (fun b => signup envW [] 0 b)).1 (by decide),
   ((validation_pipeline_complete badSignupBody (fun b => signup envW [] 0 b)).2.1
      (by decide)).1⟩

/-- C10: a request matching no registered route receives exactly the 404
status with body success false, message Route not found, and that body
conforms to the ErrorEnvelope shape. -/
theorem unmatched_route_404 (e : Env) (db : List User) (now : Nat) (req : Request)
    (h : matchesRoute req = false) :
    handleRequest e db now req = (404, notFoundBody)
    ∧ isErrorEnvelope notFoundBody = true := by
  refine ⟨?_, rfl⟩
  unfold handleRequest
  split_ifs with h1 h2 h3 h4
  · simp [matchesRoute, h1.1, h1.2] at h
  · simp [matchesRoute, h2.1, h2.2] at h
  · simp [matchesRoute, h3.1, h3.2] at h
  · simp [matchesRoute, h4.1, h4.2] at h
  · rfl

/-- Witness for C10 at a concrete unregistered path. -/
theorem unmatched_route_404_witness :
    handleRequest envW dbW 0 reqUnknown = (404, notFoundBody) :=
  (unmatched_route_404 envW dbW 0 reqUnknown (by decide)).1

/-- C4: on the protected profile route an absent or non-Bearer
Authorization header yields 401 with a response independent of the
verifier state and database (the token service is never consulted); a
bearer token failing verification yields 401 for both failure classes; and
only on successful verification is the decoded claim set handed to the
profile controller. -/
theorem auth_gate_spec (e : Env) (db : List User) (now : Nat) (req : Request)
    (hm : req.method = Method.GET) (hp : req.path = "/api/auth/profile") :
    ((∀ t, req.authorization ≠ Authorization.bearer t) →
      (handleRequest e db now req).1 = 401
      ∧ ∀ e2 db2 now2, handleRequest e db now req = handleRequest e2 db2 now2 req)
    ∧ (∀ t err, req.authorization = Authorization.bearer t →
        verifyToken e now t = Except.error err →
        (handleRequest e db now req).1 = 401)
    ∧ (∀ t p, req.authorization = Authorization.bearer t →
        verifyToken e now t = Except.ok p →
        handleRequest e db now req = getProfile db p) := by
  have hdisp : ∀ (e0 : Env) (db0 : List User) (now0 : Nat),
      handleRequest e0 db0 now0 req
        = runStep (authenticate e0 now0 req) (fun p => getProfile db0 p) := by
    intro e0 db0 now0
    simp [handleRequest, hm, hp]
  refine ⟨?_, ?_, ?_⟩
  · intro hnb
    have hauth : ∀ (e0 : Env) (now0 : Nat),
        authenticate e0 now0 req
          = StepResult.shortCircuit
              (401, unauthorizedBody ("Access denied. No token provided")) := by
      intro e0 now0
      cases ha : req.authorization with
      | absent => simp [authenticate, ha]
      | nonBearer s => simp [authenticate, ha]
      | bearer t => exact absurd ha (hnb t)
    constructor
    · rw [hdisp e db now, hauth e now]
      rfl
    · intro e2 db2 now2
      rw [hdisp e db now, hdisp e2 db2 now2, hauth e now, hauth e2 now2]
      rfl
  · intro t err hb hv
    cases err with
    | jsonWebTokenError m =>
      rw [hdisp e db now]
      simp [authenticate, hb, hv, runStep]
    | tokenExpiredError n =>
      rw [hdisp e db now]
      simp [authenticate, hb, hv, runStep]
  · intro t p hb hv
    rw [hdisp e db now]
    simp [authenticate, hb, hv, runStep]

/-- Witness for C4: a missing header and a malformed bearer token both get
401, and a fresh valid token reaches the profile controller with the
decoded claims. -/
theorem auth_gate_spec_witness :
    (handleRequest envW dbW 0 profileReqAbsent).1 = 401
    ∧ (handleRequest envW dbW 0 profileReqBad).1 = 401
    ∧ handleRequest envW dbW 6 profileReqGood
        = getProfile dbW ⟨⟨"id1", "a@x.com", "Alice"⟩, 5, 5 + envLifetime envW⟩ := by
  refine ⟨?_, ?_, ?_⟩
  · exact ((auth_gate_spec envW dbW 0 profileReqAbsent rfl rfl).1
      (by intro t h; simp [profileReqAbsent] at h)).1
  · exact (auth_gate_spec envW dbW 0 profileReqBad rfl rfl).2.1
      (Token.malformed ("x")) (JwtError.jsonWebTokenError ("jwt malformed")) rfl rfl
  · exact (auth_gate_spec envW dbW 6 profileReqGood rfl rfl).2.2
      (generateUserToken envW 5 userW) ⟨⟨"id1", "a@x.com", "Alice"⟩, 5, 5 + envLifetime envW⟩
      rfl rfl

/-- Shared lemma: the signup controller emits an ErrorEnvelope outside the
2xx range and a success envelope inside it. -/
theorem signup_respOk (e : Env) (db : List User) (now : Nat) (b : Body) :
    respOk (signup e db now b) := by
  cases h : findByEmail db (b.email.getD ("")) with
  | some u =>
    simp only [signup, h]
    exact ⟨fun _ => rfl, fun hc => absurd hc.2 (by omega)⟩
  | none =>
    simp only [signup, h]
    exact ⟨fun hc => absurd ⟨by omega, by omega⟩ hc, fun _ => rfl⟩

/-- Shared lemma: the login controller emits an ErrorEnvelope outside the
2xx range and a success envelope inside it. -/
theorem login_respOk (e : Env) (db : List User) (now : Nat) (b : Body) :
    respOk (login e db now b) := by
  cases h : findByEmail db (b.email.getD ("")) with
  | none =>
    simp only [login, h]
    exact ⟨fun _ => rfl, fun hc => absurd hc.2 (by omega)⟩
  | some u =>
    by_cases hv : bcryptVerify (b.password.getD ("")) u.password = true
    · simp only [login, h, if_pos hv]
      exact ⟨fun hc => absurd ⟨by omega, by omega⟩ hc, fun _ => rfl⟩
    · simp only [login, h, if_neg hv]
      exact ⟨fun _ => rfl, fun hc => absurd hc.2 (by omega)⟩

/-- Shared lemma: the profile controller emits an ErrorEnvelope outside the
2xx range and a success envelope inside it. -/
theorem getProfile_respOk (db : List User) (p : JwtPayload) :
    respOk (getProfile db p) := by
  cases h : findById db p.claims.id with
  | some u =>
    simp only [getProfile, h]
    exact ⟨fun hc => absurd ⟨by omega, by omega⟩ hc, fun _ => rfl⟩
  | none =>
    simp only [getProfile, h]
    exact ⟨fun _ => rfl, fun hc => absurd hc.2 (by omega)⟩

/-- Shared lemma: the signup route with its validation middleware keeps the
envelope shape classification. -/
theorem signup_route_respOk (e : Env) (db : List User) (now : Nat) (b : Body) :
    respOk (runStep (validateSignup b) (fun b2 => signup e db now b2)) := by
  cases hv : runRules signupRules b with
  | nil => simpa [validateSignup, hv, runStep] using signup_respOk e db now b
  | cons x xs =>
    simp only [validateSignup, hv, runStep]
    exact ⟨fun _ => rfl, fun hc => absurd hc.2 (by omega)⟩

/-- Shared lemma: the login route with its validation middleware keeps the
envelope shape classification. -/
theorem login_route_respOk (e : Env) (db : List User) (now : Nat) (b : Body) :
    respOk (runStep (validateLogin b) (fun b2 => login e db now b2)) := by
  cases hv : runRules loginRules b with
  | nil => simpa [validateLogin, hv, runStep] using login_respOk e db now b
  | cons x xs =>
    simp only [validateLogin, hv, runStep]
    exact ⟨fun _ => rfl, fun hc => absurd hc.2 (by omega)⟩

/-- Shared lemma: the profile route with the auth gate keeps the envelope
shape classification. -/
theorem profile_route_respOk (e : Env) (db : List User) (now : Nat) (req : Request) :
    respOk (runStep (authenticate e now req) (fun p => getProfile db p)) := by
  cases ha : req.authorization with
  | absent =>
    simp only [authenticate, ha, runStep]
    exact ⟨fun _ => rfl, fun hc => absurd hc.2 (by omega)⟩
  | nonBearer s =>
    simp only [authenticate, ha, runStep]
    exact ⟨fun _ => rfl, fun hc => absurd hc.2 (by omega)⟩
  | bearer t =>
    cases hj : verifyToken e now t with
    | ok p =>
      simpa [authenticate, ha, hj, runStep] using getProfile_respOk db p
    | error err =>
      cases err with
      | jsonWebTokenError m =>
        simp only [authenticate, ha, hj, runStep]
        exact ⟨fun _ => rfl, fun hc => absurd hc.2 (by omega)⟩
      | tokenExpiredError n =>
        simp only [authenticate, ha, hj, runStep]
        exact ⟨fun _ => rfl, fun hc => absurd hc.2 (by omega)⟩

/-- C8 counterexample: the health check handler emits a 200 response whose
body carries a timestamp member and no data member, so it does not conform
to the success envelope shape success, message, data. -/
theorem health_response_not_success_shape :
    (handleRequest envW dbW 0 healthReq).1 = 200
    ∧ isSuccessEnvelope (handleRequest envW dbW 0 healthReq).2 = false := by
  constructor <;> rfl

/-- C8 amended: every non-2xx response emitted by the server conforms to
the ErrorEnvelope shape, and every 2xx response conforms to the success
envelope shape success, message, data, except the health check response,
whose 200 body is success, message, timestamp with no data member. -/
theorem envelope_shapes (e : Env) (db : List User) (now : Nat) (req : Request) :
    (¬(200 ≤ (handleRequest e db now req).1 ∧ (handleRequest e db now req).1 < 300) →
       isErrorEnvelope (handleRequest e db now req).2 = true)
    ∧ ((200 ≤ (handleRequest e db now req).1 ∧ (handleRequest e db now req).1 < 300) →
       isSuccessEnvelope (handleRequest e db now req).2 = true
       ∨ (handleRequest e db now req).2 = healthBody (toString now)) := by
  unfold handleRequest
  split_ifs with h1 h2 h3 h4
  · have h := signup_route_respOk e db now req.body
    exact ⟨h.1, fun hc => Or.inl (h.2 hc)⟩
  · have h := login_route_respOk e db now req.body
    exact ⟨h.1, fun hc => Or.inl (h.2 hc)⟩
  · have h := profile_route_respOk e db now req
    exact ⟨h.1, fun hc => Or.inl (h.2 hc)⟩
  · exact ⟨fun hc => absurd ⟨by omega, by omega⟩ hc, fun _ => Or.inr rfl⟩
  · exact ⟨fun _ => rfl, fun hc => absurd hc.2 (by omega)⟩

/-- Witness for C8 amended: the 404 response conforms to the ErrorEnvelope
shape, and the health check 200 response falls under the exception. -/
theorem envelope_shapes_witness :
    isErrorEnvelope (handleRequest envW dbW 0 reqUnknown).2 = true
    ∧ (isSuccessEnvelope (handleRequest envW dbW 0 healthReq).2 = true
        ∨ (handleRequest envW dbW 0 healthReq).2 = healthBody (toString 0)) :=
  ⟨(envelope_shapes envW dbW 0 reqUnknown).1 (by decide),
   (envelope_shapes envW dbW 0 healthReq).2 (by decide)⟩

end KidEdu
